import Mathlib

/-!
Shallow embedding of the Cygaar points tracker (src/src/App.tsx).

The application is a single React component.  The verifiable core is:
  - the compiled-in constants (lines 10-15 of App.tsx);
  - `calculateLevel` (lines 78-80);
  - the score-and-upsert flow `calculatePoints` (lines 82-149);
  - the leaderboard query `fetchLeaderboard` (lines 63-76).

Numeric values (JavaScript `number` and `bigint`) are embedded as exact
rationals and integers; all arithmetic appearing in the claims is far below
the precision where float64 rounding could flip any compared result.
External effects (the viem RPC client and the supabase store) are embedded
as explicit parameters: the outcomes of the two chain reads and of the
upsert are inputs, and the calls the code issues are returned as a trace.
-/

/-- Line 10 of App.tsx: the token contract address. -/
def CYGAAR_ADDRESS : String := "0x35EfA4699EdD7b468CBBf4FfF7B6e7AFC0A7aDa6"

/-- Line 11 of App.tsx: the excluded Uniswap pool address (mixed case, as compiled in). -/
def UNISWAP_POOL : String := "0xBe01179F2291773D220Eae55Ee85b417F40342d0"

/-- Line 12 of App.tsx: `const START_BLOCK = 257810n`. -/
def START_BLOCK : ℤ := 257810

/-- Line 13 of App.tsx: `const POINTS_PER_TOKEN = 0.0000000001`, i.e. 1e-10. -/
def POINTS_PER_TOKEN : ℚ := 1 / 10 ^ 10

/-- Line 14 of App.tsx: `const POINTS_PER_LEVEL = 650`. -/
def POINTS_PER_LEVEL : ℚ := 650

/-- JavaScript `toLowerCase` on an address string, embedded as a character-wise
map (the addresses involved are ASCII). -/
def lowercase (s : String) : String := String.mk (s.data.map Char.toLower)

/-- viem `formatEther`: a raw smallest-unit (wei-style) balance converted to a
decimal token amount using the fixed 18-decimal count (line 114 of App.tsx). -/
def formatEther (wei : ℕ) : ℚ := (wei : ℚ) / 10 ^ 18

/-- The `PointsData` record built at lines 118-123 of App.tsx.  The source
stores `tokenBalance.toFixed(2)` (a display string) in its `balance` field;
we keep the numeric `tokenBalance` the string is formatted from. -/
structure PointsData where
  balance : ℚ
  points : ℚ
  blocksHeld : ℤ
  level : ℤ
deriving DecidableEq, Repr

/-- The React state touched by `calculatePoints`: `error`, `pointsData`,
`loading`, `showPointsAnimation`, `showLevelUp` (lines 43-48 of App.tsx). -/
structure AppState where
  error : String
  pointsData : Option PointsData
  loading : Bool
  showPointsAnimation : Bool
  showLevelUp : Bool
deriving DecidableEq, Repr

/-- One external call issued by `calculatePoints`: the two Chain Reader
calls (lines 99 and 100-111), the store upsert (lines 129-135) and the
leaderboard refresh it triggers on success (line 140). -/
inductive Call where
  | getBlockNumber : Call
  | balanceOf (addr : String) : Call
  | upsert (addr : String) (points : ℚ) (lastUpdated : String) : Call
  | selectTopN : Call
deriving DecidableEq, Repr

/-- Outcome of one run of `calculatePoints`: the final React state, the
external calls issued in order, and the console-error log entries. -/
structure RunResult where
  state : AppState
  calls : List Call
  logs : List String
deriving DecidableEq, Repr

/-- Lines 78-80 of App.tsx: `Math.floor(points / POINTS_PER_LEVEL) + 1`. -/
def calculateLevel (points : ℚ) : ℤ := ⌊points / POINTS_PER_LEVEL⌋ + 1

/-- Lines 113-123 of App.tsx: the pure score computation performed once the
two chain reads have succeeded. -/
def computeSnapshot (currentBlock : ℤ) (rawBalance : ℕ) : PointsData :=
  let blocksHeld : ℤ := currentBlock - START_BLOCK
  let tokenBalance : ℚ := formatEther rawBalance
  let points : ℚ := tokenBalance * POINTS_PER_TOKEN * (blocksHeld : ℚ)
  { balance := tokenBalance
    points := points
    blocksHeld := blocksHeld
    level := calculateLevel points }

/-- Lines 82-149 of App.tsx, `calculatePoints`.  The outcomes of the
awaited external operations are passed in: `blockResult` for
`publicClient.getBlockNumber()`, `balanceResult` for the `balanceOf`
contract read (both throw into the catch block on failure), `upsertError`
for the supabase upsert (supabase reports errors as a value, it does not
throw), and `timestamp` for `new Date().toISOString()`. -/
def calculatePoints (addressToCheck : String) (s : AppState)
    (blockResult : Except Unit ℤ) (balanceResult : Except Unit ℕ)
    (upsertError : Option String) (timestamp : String) : RunResult :=
  if addressToCheck = "" then
    { state := { s with error := "Please enter an address" }, calls := [], logs := [] }
  else if lowercase addressToCheck = lowercase UNISWAP_POOL then
    { state := { s with error := "This address is not eligible for points tracking" }
      calls := [], logs := [] }
  else
    let s1 : AppState :=
      { s with loading := true, error := ""
               showPointsAnimation := false, showLevelUp := false }
    match blockResult with
    | Except.error _ =>
        { state := { s1 with
            error := "Error fetching data. Please check the address and try again."
            loading := false }
          calls := [Call.getBlockNumber], logs := ["caught chain error"] }
    | Except.ok currentBlock =>
      match balanceResult with
      | Except.error _ =>
          { state := { s1 with
              error := "Error fetching data. Please check the address and try again."
              loading := false }
            calls := [Call.getBlockNumber, Call.balanceOf addressToCheck]
            logs := ["caught chain error"] }
      | Except.ok balance =>
        let pd : PointsData := computeSnapshot currentBlock balance
        let s2 : AppState :=
          { s1 with pointsData := some pd
                    showPointsAnimation := true, showLevelUp := true }
        let up : Call := Call.upsert (lowercase addressToCheck) pd.points timestamp
        match upsertError with
        | some e =>
            { state := { s2 with loading := false }
              calls := [Call.getBlockNumber, Call.balanceOf addressToCheck, up]
              logs := ["Error updating leaderboard: " ++ e] }
        | none =>
            { state := { s2 with loading := false }
              calls := [Call.getBlockNumber, Call.balanceOf addressToCheck, up,
                        Call.selectTopN]
              logs := [] }

/-- One row of the `points_leaderboard` table (lines 34-38 of App.tsx). -/
structure LeaderboardEntry where
  address : String
  points : ℚ
  last_updated : String
deriving DecidableEq, Repr

/-- The ordering used by `.order('points', { ascending: false })`:
`a` may come before `b` when `b.points ≤ a.points`. -/
def byPointsDesc (a b : LeaderboardEntry) : Prop := b.points ≤ a.points

instance : DecidableRel byPointsDesc :=
  fun a b => inferInstanceAs (Decidable (b.points ≤ a.points))

instance : IsTotal LeaderboardEntry byPointsDesc :=
  ⟨fun a b => le_total b.points a.points⟩

instance : IsTrans LeaderboardEntry byPointsDesc :=
  ⟨fun _ _ _ h1 h2 => le_trans h2 h1⟩

/-- Lines 63-69 of App.tsx: the leaderboard query
`select * neq(address, UNISWAP_POOL) order(points, descending) limit(10)`
applied to the current table contents.  The `.neq` filter is an exact
(case-sensitive) string comparison against the mixed-case constant. -/
def topNQuery (table : List LeaderboardEntry) : List LeaderboardEntry :=
  ((table.filter (fun r => r.address != UNISWAP_POOL)).insertionSort byPointsDesc).take 10

/-- Lines 63-76 of App.tsx, `fetchLeaderboard`: on a query error the
previous leaderboard state is kept and the error only logged, otherwise the
state is replaced by the query result. -/
def fetchLeaderboard (table : List LeaderboardEntry) (queryError : Option String)
    (leaderboard : List LeaderboardEntry) : List LeaderboardEntry × List String :=
  match queryError with
  | some e => (leaderboard, ["Error fetching leaderboard: " ++ e])
  | none => (topNQuery table, [])

/-- The upsert rows written by a trace of calls, in order. -/
def upsertCalls (calls : List Call) : List (String × ℚ × String) :=
  calls.filterMap fun c =>
    match c with
    | Call.upsert a p t => some (a, p, t)
    | _ => none

/-- The address keys of the upsert rows written by a trace of calls. -/
def upsertKeys (calls : List Call) : List String :=
  (upsertCalls calls).map (fun x => x.1)

/-- An initial React state: no error, no snapshot, nothing loading. -/
def initialState : AppState :=
  { error := "", pointsData := none, loading := false
    showPointsAnimation := false, showLevelUp := false }

/-- C1: for non-negative token balance and blocks held, the computed points
equal tokenBalance * POINTS_PER_TOKEN * blocksHeld with POINTS_PER_TOKEN
equal to 1e-10; in particular a token balance of 1000000 held for 10000
blocks yields exactly 1 point. -/
theorem points_formula_spec (currentBlock : ℤ) (rawBalance : ℕ)
    (hbal : 0 ≤ formatEther rawBalance)
    (hheld : 0 ≤ currentBlock - START_BLOCK) :
    (computeSnapshot currentBlock rawBalance).points
        = (computeSnapshot currentBlock rawBalance).balance * (1 / 10 ^ 10)
            * ((currentBlock - START_BLOCK : ℤ) : ℚ)
      ∧ POINTS_PER_TOKEN = 1 / 10 ^ 10
      ∧ (computeSnapshot (START_BLOCK + 10000) (10 ^ 24)).points = 1 := by
  refine ⟨?_, rfl, ?_⟩
  · simp [computeSnapshot, POINTS_PER_TOKEN]
  · norm_num [computeSnapshot, formatEther, POINTS_PER_TOKEN, START_BLOCK]

/-- Witness for points_formula_spec at currentBlock = 267810 and a raw
balance of 10^24 (one million 18-decimal tokens, 10000 blocks held). -/
theorem points_formula_spec_witness :
    (computeSnapshot 267810 (10 ^ 24)).points
        = (computeSnapshot 267810 (10 ^ 24)).balance * (1 / 10 ^ 10)
            * ((267810 - START_BLOCK : ℤ) : ℚ)
      ∧ POINTS_PER_TOKEN = 1 / 10 ^ 10
      ∧ (computeSnapshot (START_BLOCK + 10000) (10 ^ 24)).points = 1 :=
  points_formula_spec 267810 (10 ^ 24)
    (by norm_num [formatEther]) (by norm_num [START_BLOCK])

/-- C2: for non-negative points the computed level is
floor(points / POINTS_PER_LEVEL) + 1 with POINTS_PER_LEVEL = 650; points 0
gives level 1, points 650 gives level 2, points 649.999 gives level 1. -/
theorem level_formula_spec (points : ℚ) (hpts : 0 ≤ points) :
    calculateLevel points = ⌊points / 650⌋ + 1
      ∧ POINTS_PER_LEVEL = 650
      ∧ calculateLevel 0 = 1
      ∧ calculateLevel 650 = 2
      ∧ calculateLevel (649999 / 1000) = 1 := by
  refine ⟨rfl, rfl, ?_, ?_, ?_⟩
  · norm_num [calculateLevel, POINTS_PER_LEVEL]
  · norm_num [calculateLevel, POINTS_PER_LEVEL]
  · have h0 : ⌊(649999 / 1000 : ℚ) / 650⌋ = 0 := by
      rw [Int.floor_eq_zero_iff]
      constructor <;> norm_num
    simp [calculateLevel, POINTS_PER_LEVEL, h0]

/-- Witness for level_formula_spec at points = 650. -/
theorem level_formula_spec_witness :
    calculateLevel 650 = ⌊(650 : ℚ) / 650⌋ + 1
      ∧ POINTS_PER_LEVEL = 650
      ∧ calculateLevel 0 = 1
      ∧ calculateLevel 650 = 2
      ∧ calculateLevel (649999 / 1000) = 1 :=
  level_formula_spec 650 (by norm_num)

/-- C3: an empty input, or an input equal to the excluded pool address
under case-insensitive comparison, sets a validation error message and
returns before any Chain Reader or Leaderboard Store call is issued. -/
theorem validation_short_circuit (addressToCheck timestamp : String) (s : AppState)
    (blockResult : Except Unit ℤ) (balanceResult : Except Unit ℕ)
    (upsertError : Option String)
    (hval : addressToCheck = ""
        ∨ lowercase addressToCheck = lowercase UNISWAP_POOL) :
    (calculatePoints addressToCheck s blockResult balanceResult upsertError
        timestamp).calls = []
      ∧ ((calculatePoints addressToCheck s blockResult balanceResult upsertError
            timestamp).state.error = "Please enter an address"
        ∨ (calculatePoints addressToCheck s blockResult balanceResult upsertError
            timestamp).state.error
              = "This address is not eligible for points tracking") := by
  rcases hval with h | h
  · subst h
    exact ⟨rfl, Or.inl rfl⟩
  · by_cases h0 : addressToCheck = ""
    · subst h0
      exact ⟨rfl, Or.inl rfl⟩
    · refine ⟨?_, Or.inr ?_⟩ <;> simp [calculatePoints, h0, h]

/-- Witness for validation_short_circuit: submitting the pool address
itself. -/
theorem validation_short_circuit_witness :
    (calculatePoints UNISWAP_POOL initialState (Except.ok 300000)
        (Except.ok (10 ^ 18)) none "ts").calls = []
      ∧ ((calculatePoints UNISWAP_POOL initialState (Except.ok 300000)
            (Except.ok (10 ^ 18)) none "ts").state.error = "Please enter an address"
        ∨ (calculatePoints UNISWAP_POOL initialState (Except.ok 300000)
            (Except.ok (10 ^ 18)) none "ts").state.error
              = "This address is not eligible for points tracking") :=
  validation_short_circuit UNISWAP_POOL "ts" initialState (Except.ok 300000)
    (Except.ok (10 ^ 18)) none (Or.inr rfl)

/-- C4: when the chain reads succeed and the subsequent upsert fails with a
store error, the computed snapshot is still set and shown, the user-visible
error stays cleared, the failure is logged, and no leaderboard refresh
follows. -/
theorem upsert_failure_keeps_snapshot (addr timestamp e : String) (s : AppState)
    (currentBlock : ℤ) (rawBalance : ℕ)
    (h0 : ¬ addr = "") (h1 : ¬ lowercase addr = lowercase UNISWAP_POOL) :
    (calculatePoints addr s (Except.ok currentBlock) (Except.ok rawBalance)
        (some e) timestamp).state.pointsData
          = some (computeSnapshot currentBlock rawBalance)
      ∧ (calculatePoints addr s (Except.ok currentBlock) (Except.ok rawBalance)
            (some e) timestamp).state.error = ""
      ∧ (calculatePoints addr s (Except.ok currentBlock) (Except.ok rawBalance)
            (some e) timestamp).state.showPointsAnimation = true
      ∧ Call.selectTopN ∉ (calculatePoints addr s (Except.ok currentBlock)
            (Except.ok rawBalance) (some e) timestamp).calls
      ∧ (calculatePoints addr s (Except.ok currentBlock) (Except.ok rawBalance)
            (some e) timestamp).logs = ["Error updating leaderboard: " ++ e] := by
  simp [calculatePoints, h0, h1]

/-- Witness for upsert_failure_keeps_snapshot at a concrete address, block
height, balance and store error. -/
theorem upsert_failure_keeps_snapshot_witness :
    (calculatePoints "0xabc" initialState (Except.ok 300000) (Except.ok (10 ^ 18))
        (some "db down") "ts").state.pointsData
          = some (computeSnapshot 300000 (10 ^ 18))
      ∧ (calculatePoints "0xabc" initialState (Except.ok 300000) (Except.ok (10 ^ 18))
            (some "db down") "ts").state.error = ""
      ∧ (calculatePoints "0xabc" initialState (Except.ok 300000) (Except.ok (10 ^ 18))
            (some "db down") "ts").state.showPointsAnimation = true
      ∧ Call.selectTopN ∉ (calculatePoints "0xabc" initialState (Except.ok 300000)
            (Except.ok (10 ^ 18)) (some "db down") "ts").calls
      ∧ (calculatePoints "0xabc" initialState (Except.ok 300000) (Except.ok (10 ^ 18))
            (some "db down") "ts").logs = ["Error updating leaderboard: " ++ "db down"] :=
  upsert_failure_keeps_snapshot "0xabc" "ts" "db down" initialState 300000 (10 ^ 18)
    (by decide) (by decide)

/-- C5 amended: every leaderboard query returns at most 10 entries, ordered
by points descending, and excludes rows whose stored address is exactly the
mixed-case compiled-in pool constant.  The `.neq` filter is case-sensitive,
so a row storing the pool address in another letter case is not excluded
(see the counterexample). -/
theorem topn_bounded_sorted_exact_exclusion (table : List LeaderboardEntry) :
    (topNQuery table).length ≤ 10
      ∧ List.Sorted byPointsDesc (topNQuery table)
      ∧ (topNQuery table).all (fun r => r.address != UNISWAP_POOL) = true := by
  refine ⟨?_, ?_, ?_⟩
  · exact List.length_take_le 10 _
  · exact (List.sorted_insertionSort byPointsDesc _).sublist
      (List.take_sublist 10 _)
  · rw [List.all_eq_true]
    intro r hr
    have hmem : r ∈ (table.filter
        (fun x => x.address != UNISWAP_POOL)).insertionSort byPointsDesc :=
      List.mem_of_mem_take hr
    have hfil : r ∈ table.filter (fun x => x.address != UNISWAP_POOL) :=
      (List.mem_insertionSort byPointsDesc).mp hmem
    exact (List.mem_filter.mp hfil).2

/-- A leaderboard row storing the pool address in lowercase. -/
def poolRowLower : LeaderboardEntry :=
  { address := "0xbe01179f2291773d220eae55ee85b417f40342d0"
    points := 5
    last_updated := "2025-01-01T00:00:00Z" }

/-- C5 counterexample: a row whose address is the excluded pool address
stored in lowercase survives the query, because the `.neq` filter compares
exactly against the mixed-case constant.  The claim that results never
include the pool address no matter the stored letter case is therefore
false. -/
theorem topn_includes_lowercased_pool_counterexample :
    topNQuery [poolRowLower] = [poolRowLower]
      ∧ lowercase poolRowLower.address = lowercase UNISWAP_POOL
      ∧ poolRowLower.address ≠ UNISWAP_POOL := by
  refine ⟨rfl, rfl, ?_⟩
  decide

/-- C6: the address key written by the store upsert is the input address
normalized to lowercase, so two inputs differing only in letter case write
to the same row key. -/
theorem stored_address_lowercased (a b timestamp : String) (s : AppState)
    (currentBlock : ℤ) (rawBalance : ℕ) (upsertError : Option String)
    (h0a : ¬ a = "") (h0b : ¬ b = "")
    (h1a : ¬ lowercase a = lowercase UNISWAP_POOL)
    (hab : lowercase a = lowercase b) :
    upsertKeys (calculatePoints a s (Except.ok currentBlock) (Except.ok rawBalance)
        upsertError timestamp).calls = [lowercase a]
      ∧ upsertKeys (calculatePoints b s (Except.ok currentBlock) (Except.ok rawBalance)
          upsertError timestamp).calls = [lowercase a] := by
  have h1b : ¬ lowercase b = lowercase UNISWAP_POOL := hab ▸ h1a
  cases upsertError <;> constructor <;>
    simp [calculatePoints, upsertKeys, upsertCalls, h0a, h0b, h1a, h1b, hab]

/-- Witness for stored_address_lowercased: the inputs 0xAbC and 0xabc write
the same lowercase row key. -/
theorem stored_address_lowercased_witness :
    upsertKeys (calculatePoints "0xAbC" initialState (Except.ok 300000)
        (Except.ok (10 ^ 18)) none "ts").calls = [lowercase "0xAbC"]
      ∧ upsertKeys (calculatePoints "0xabc" initialState (Except.ok 300000)
          (Except.ok (10 ^ 18)) none "ts").calls = [lowercase "0xAbC"] :=
  stored_address_lowercased "0xAbC" "0xabc" "ts" initialState 300000 (10 ^ 18) none
    (by decide) (by decide) (by decide) rfl

/-- C7 counterexample: at currentBlock = 0 (below START_BLOCK = 257810) and
a positive balance, the code does not raise any validation error: it
completes the run with a negative blocksHeld and a negative points value
and still issues the chain and store calls. -/
theorem negative_blocks_counterexample :
    (calculatePoints "0xabc" initialState (Except.ok 0) (Except.ok (10 ^ 18))
        none "ts").state.error = ""
      ∧ (calculatePoints "0xabc" initialState (Except.ok 0) (Except.ok (10 ^ 18))
          none "ts").state.pointsData = some (computeSnapshot 0 (10 ^ 18))
      ∧ (computeSnapshot 0 (10 ^ 18)).blocksHeld < 0
      ∧ (computeSnapshot 0 (10 ^ 18)).points < 0
      ∧ (calculatePoints "0xabc" initialState (Except.ok 0) (Except.ok (10 ^ 18))
          none "ts").calls ≠ [] := by
  have hne : ¬ lowercase "0xabc" = lowercase UNISWAP_POOL := by decide
  refine ⟨?_, ?_, ?_, ?_, ?_⟩
  · simp [calculatePoints, hne]
  · simp [calculatePoints, hne]
  · norm_num [computeSnapshot, START_BLOCK]
  · norm_num [computeSnapshot, START_BLOCK, formatEther, POINTS_PER_TOKEN]
  · simp [calculatePoints, hne]

/-- C7 amended: when the chain reports a block height below START_BLOCK,
the code performs no validation: the run completes without error, the
snapshot holds a negative blocksHeld and (for a positive balance) a
negative points value, and that value is still upserted. -/
theorem negative_blocks_passthrough (addr timestamp : String) (s : AppState)
    (currentBlock : ℤ) (rawBalance : ℕ) (upsertError : Option String)
    (h0 : ¬ addr = "") (h1 : ¬ lowercase addr = lowercase UNISWAP_POOL)
    (hlt : currentBlock < START_BLOCK) (hpos : 0 < rawBalance) :
    (calculatePoints addr s (Except.ok currentBlock) (Except.ok rawBalance)
        upsertError timestamp).state.error = ""
      ∧ (calculatePoints addr s (Except.ok currentBlock) (Except.ok rawBalance)
          upsertError timestamp).state.pointsData
            = some (computeSnapshot currentBlock rawBalance)
      ∧ (computeSnapshot currentBlock rawBalance).blocksHeld < 0
      ∧ (computeSnapshot currentBlock rawBalance).points < 0
      ∧ upsertKeys (calculatePoints addr s (Except.ok currentBlock)
          (Except.ok rawBalance) upsertError timestamp).calls = [lowercase addr] := by
  have htb : (0 : ℚ) < formatEther rawBalance := by
    have hq : (0 : ℚ) < (rawBalance : ℚ) := by exact_mod_cast hpos
    exact div_pos hq (by norm_num)
  have hbh : ((currentBlock - START_BLOCK : ℤ) : ℚ) < 0 := by
    have : currentBlock - START_BLOCK < 0 := sub_neg.mpr hlt
    exact_mod_cast this
  refine ⟨?_, ?_, ?_, ?_, ?_⟩
  · cases upsertError <;> simp [calculatePoints, h0, h1]
  · cases upsertError <;> simp [calculatePoints, h0, h1]
  · simp only [computeSnapshot]
    omega
  · simp only [computeSnapshot]
    exact mul_neg_of_pos_of_neg
      (mul_pos htb (by norm_num [POINTS_PER_TOKEN])) hbh
  · cases upsertError <;>
      simp [calculatePoints, upsertKeys, upsertCalls, h0, h1]

/-- Witness for negative_blocks_passthrough at currentBlock = 0 and a raw
balance of one whole token. -/
theorem negative_blocks_passthrough_witness :
    (calculatePoints "0xabc" initialState (Except.ok 0) (Except.ok (10 ^ 18))
        (some "db down") "ts").state.error = ""
      ∧ (calculatePoints "0xabc" initialState (Except.ok 0) (Except.ok (10 ^ 18))
          (some "db down") "ts").state.pointsData
            = some (computeSnapshot 0 (10 ^ 18))
      ∧ (computeSnapshot 0 (10 ^ 18)).blocksHeld < 0
      ∧ (computeSnapshot 0 (10 ^ 18)).points < 0
      ∧ upsertKeys (calculatePoints "0xabc" initialState (Except.ok 0)
          (Except.ok (10 ^ 18)) (some "db down") "ts").calls = [lowercase "0xabc"] :=
  negative_blocks_passthrough "0xabc" "ts" initialState 0 (10 ^ 18) (some "db down")
    (by decide) (by decide) (by norm_num [START_BLOCK]) (by norm_num)

/-- C8: the score computation is deterministic and pure: two runs seeing
the same balance and block height produce the same snapshot (hence the same
points and level), independent of the submitted address, the prior UI
state, the timestamp, and the store upsert outcome. -/
theorem score_deterministic (a1 a2 ts1 ts2 : String) (s1 s2 : AppState)
    (currentBlock : ℤ) (rawBalance : ℕ) (up1 up2 : Option String)
    (h0a : ¬ a1 = "") (h1a : ¬ lowercase a1 = lowercase UNISWAP_POOL)
    (h0b : ¬ a2 = "") (h1b : ¬ lowercase a2 = lowercase UNISWAP_POOL) :
    (calculatePoints a1 s1 (Except.ok currentBlock) (Except.ok rawBalance)
        up1 ts1).state.pointsData
      = (calculatePoints a2 s2 (Except.ok currentBlock) (Except.ok rawBalance)
          up2 ts2).state.pointsData
      ∧ (calculatePoints a1 s1 (Except.ok currentBlock) (Except.ok rawBalance)
          up1 ts1).state.pointsData = some (computeSnapshot currentBlock rawBalance) := by
  cases up1 <;> cases up2 <;> constructor <;>
    simp [calculatePoints, h0a, h1a, h0b, h1b]

/-- Witness for score_deterministic: two runs for differently-cased
addresses with different prior states and store outcomes. -/
theorem score_deterministic_witness :
    (calculatePoints "0xAbC" initialState (Except.ok 300000) (Except.ok (10 ^ 18))
        none "t1").state.pointsData
      = (calculatePoints "0xabc"
          { error := "old", pointsData := none, loading := true
            showPointsAnimation := true, showLevelUp := true }
          (Except.ok 300000) (Except.ok (10 ^ 18)) (some "db down") "t2").state.pointsData
      ∧ (calculatePoints "0xAbC" initialState (Except.ok 300000) (Except.ok (10 ^ 18))
          none "t1").state.pointsData = some (computeSnapshot 300000 (10 ^ 18)) :=
  score_deterministic "0xAbC" "0xabc" "t1" "t2" initialState
    { error := "old", pointsData := none, loading := true
      showPointsAnimation := true, showLevelUp := true }
    300000 (10 ^ 18) none (some "db down")
    (by decide) (by decide) (by decide) (by decide)

/-- C9: blocksHeld is computed from the single compiled-in constant
START_BLOCK = 257810, so two successful runs at the same block height get
the same blocksHeld whatever their addresses and balances. -/
theorem blocks_held_uniform (a1 a2 ts1 ts2 : String) (s1 s2 : AppState)
    (currentBlock : ℤ) (raw1 raw2 : ℕ) (up1 up2 : Option String)
    (h0a : ¬ a1 = "") (h1a : ¬ lowercase a1 = lowercase UNISWAP_POOL)
    (h0b : ¬ a2 = "") (h1b : ¬ lowercase a2 = lowercase UNISWAP_POOL) :
    (calculatePoints a1 s1 (Except.ok currentBlock) (Except.ok raw1)
        up1 ts1).state.pointsData = some (computeSnapshot currentBlock raw1)
      ∧ (calculatePoints a2 s2 (Except.ok currentBlock) (Except.ok raw2)
          up2 ts2).state.pointsData = some (computeSnapshot currentBlock raw2)
      ∧ (computeSnapshot currentBlock raw1).blocksHeld = currentBlock - 257810
      ∧ (computeSnapshot currentBlock raw2).blocksHeld
          = (computeSnapshot currentBlock raw1).blocksHeld := by
  refine ⟨?_, ?_, ?_, ?_⟩
  · cases up1 <;> simp [calculatePoints, h0a, h1a]
  · cases up2 <;> simp [calculatePoints, h0b, h1b]
  · simp [computeSnapshot, START_BLOCK]
  · simp [computeSnapshot]

/-- Witness for blocks_held_uniform: two different addresses with different
balances at block 300000 both get blocksHeld = 42190. -/
theorem blocks_held_uniform_witness :
    (calculatePoints "0xabc" initialState (Except.ok 300000) (Except.ok (10 ^ 18))
        none "t1").state.pointsData = some (computeSnapshot 300000 (10 ^ 18))
      ∧ (calculatePoints "0xdef" initialState (Except.ok 300000) (Except.ok (5 * 10 ^ 18))
          none "t2").state.pointsData = some (computeSnapshot 300000 (5 * 10 ^ 18))
      ∧ (computeSnapshot 300000 (10 ^ 18)).blocksHeld = 300000 - 257810
      ∧ (computeSnapshot 300000 (5 * 10 ^ 18)).blocksHeld
          = (computeSnapshot 300000 (10 ^ 18)).blocksHeld :=
  blocks_held_uniform "0xabc" "0xdef" "t1" "t2" initialState initialState
    300000 (10 ^ 18) (5 * 10 ^ 18) none none
    (by decide) (by decide) (by decide) (by decide)

/-- C10: one computation feeds both the display and the store: the points
value in the upsert row is exactly the points value of the displayed
snapshot, whatever the upsert outcome. -/
theorem stored_points_equal_displayed (addr timestamp : String) (s : AppState)
    (currentBlock : ℤ) (rawBalance : ℕ) (upsertError : Option String)
    (h0 : ¬ addr = "") (h1 : ¬ lowercase addr = lowercase UNISWAP_POOL) :
    (calculatePoints addr s (Except.ok currentBlock) (Except.ok rawBalance)
        upsertError timestamp).state.pointsData
          = some (computeSnapshot currentBlock rawBalance)
      ∧ upsertCalls (calculatePoints addr s (Except.ok currentBlock)
          (Except.ok rawBalance) upsertError timestamp).calls
            = [(lowercase addr,
                (computeSnapshot currentBlock rawBalance).points, timestamp)] := by
  cases upsertError <;> constructor <;>
    simp [calculatePoints, upsertCalls, h0, h1]

/-- Witness for stored_points_equal_displayed at a concrete address, block
height and balance. -/
theorem stored_points_equal_displayed_witness :
    (calculatePoints "0xabc" initialState (Except.ok 300000) (Except.ok (10 ^ 18))
        none "ts").state.pointsData = some (computeSnapshot 300000 (10 ^ 18))
      ∧ upsertCalls (calculatePoints "0xabc" initialState (Except.ok 300000)
          (Except.ok (10 ^ 18)) none "ts").calls
            = [(lowercase "0xabc", (computeSnapshot 300000 (10 ^ 18)).points, "ts")] :=
  stored_points_equal_displayed "0xabc" "ts" initialState 300000 (10 ^ 18) none
    (by decide) (by decide)
